import Mathlib

/-!
# MTBS — Multi-Threaded Banking System: a shallow embedding

This file embeds the data model and the operations of the MTBS repository
(`src/MTBS`) in Lean 4 and proves properties of them.

Conventions of the embedding:
* C++ `double` money amounts become `Rat` (exact arithmetic; the claims under
  study only use `+`, `-` and order comparisons on amounts).
* The global atomic transaction counter (`Transaction::transactionCounter`)
  becomes an explicit `Nat` threaded through each operation.
* `std::vector<Transaction>` histories become `List Transaction`
  (`push_back` = append at the tail).
* Timestamps are dropped: no modelled behaviour reads them.
* Mutex behaviour is modelled separately, as the sequence of acquire/release
  events an operation performs on the mutexes it touches (a mutex is named by
  the account number of the account that owns it).
-/

namespace MTBS

/-- Transaction type constants (`namespace TransactionType`, account.h 96-101). -/
inductive TransactionType
  | DEPOSIT
  | WITHDRAW
  | TRANSFER
  | BALANCE_CHECK
deriving DecidableEq, Repr

/-- Transaction status constants (`namespace TransactionStatus`, account.h 104-110). -/
inductive TransactionStatus
  | SUCCESS
  | FAILED
  | PENDING
  | INSUFFICIENT_FUNDS
  | INVALID_ACCOUNT
deriving DecidableEq, Repr

/-- A transaction record (`struct Transaction`, account.h 72-93), without the
timestamp field. `status` is set before the record is appended, so it appears
here as the terminal value the appending operation gives it. -/
structure Transaction where
  transactionId : String
  fromAccount : String
  toAccount : String
  type : TransactionType
  amount : Rat
  description : String
  status : TransactionStatus
deriving DecidableEq, Repr

/-- The mutable state of an `Account` (account.h 19-64): number, holder name,
balance and transaction history. The mutex and the creation timestamp carry no
data relevant to the modelled behaviour. -/
structure Account where
  accountNumber : String
  accountHolderName : String
  balance : Rat
  transactionHistory : List Transaction
deriving DecidableEq, Repr

/-- `Account::deposit` (account.cpp 92-112). Rejects `amount <= 0` with no
mutation; otherwise increases the balance and appends a SUCCESS DEPOSIT record
whose id is `DEP_` followed by the incremented global counter. Returns the
`bool` result, the new account state and the new counter. -/
def Account.deposit (a : Account) (counter : Nat) (amount : Rat)
    (description : String) : Bool × Account × Nat :=
  if amount ≤ 0 then
    (false, a, counter)
  else
    let counter' := counter + 1
    let t : Transaction :=
      { transactionId := "DEP_" ++ toString counter'
        fromAccount := ""
        toAccount := a.accountNumber
        type := TransactionType.DEPOSIT
        amount := amount
        description := description
        status := TransactionStatus.SUCCESS }
    (true,
     { a with balance := a.balance + amount
              transactionHistory := a.transactionHistory ++ [t] },
     counter')

/-- `Account::withdraw` (account.cpp 114-145). Rejects `amount <= 0` with no
mutation; if `balance < amount` appends an INSUFFICIENT_FUNDS WITHDRAW record
and fails without touching the balance; otherwise decreases the balance and
appends a SUCCESS WITHDRAW record. -/
def Account.withdraw (a : Account) (counter : Nat) (amount : Rat)
    (description : String) : Bool × Account × Nat :=
  if amount ≤ 0 then
    (false, a, counter)
  else if a.balance < amount then
    let counter' := counter + 1
    let t : Transaction :=
      { transactionId := "WTH_" ++ toString counter'
        fromAccount := a.accountNumber
        toAccount := ""
        type := TransactionType.WITHDRAW
        amount := amount
        description := description
        status := TransactionStatus.INSUFFICIENT_FUNDS }
    (false,
     { a with transactionHistory := a.transactionHistory ++ [t] },
     counter')
  else
    let counter' := counter + 1
    let t : Transaction :=
      { transactionId := "WTH_" ++ toString counter'
        fromAccount := a.accountNumber
        toAccount := ""
        type := TransactionType.WITHDRAW
        amount := amount
        description := description
        status := TransactionStatus.SUCCESS }
    (true,
     { a with balance := a.balance - amount
              transactionHistory := a.transactionHistory ++ [t] },
     counter')

/-- `Account::transfer` (account.cpp 147-198), data behaviour once both locks
are held: rejects `amount <= 0` with no mutation and no record; on
`balance < amount` appends one INSUFFICIENT_FUNDS TRANSFER record to the
source only and fails; otherwise debits the source, credits the target and
appends one SUCCESS TRANSFER record to each history, both built from the same
generated id and referencing both account numbers. Returns the `bool` result,
the new source state, the new target state and the new counter. -/
def Account.transfer (src tgt : Account) (counter : Nat) (amount : Rat)
    (description : String) : Bool × Account × Account × Nat :=
  if amount ≤ 0 then
    (false, src, tgt, counter)
  else if src.balance < amount then
    let counter' := counter + 1
    let t : Transaction :=
      { transactionId := "TRF_" ++ toString counter'
        fromAccount := src.accountNumber
        toAccount := tgt.accountNumber
        type := TransactionType.TRANSFER
        amount := amount
        description := description
        status := TransactionStatus.INSUFFICIENT_FUNDS }
    (false,
     { src with transactionHistory := src.transactionHistory ++ [t] },
     tgt,
     counter')
  else
    let counter' := counter + 1
    let transactionId := "TRF_" ++ toString counter'
    let outgoing : Transaction :=
      { transactionId := transactionId
        fromAccount := src.accountNumber
        toAccount := tgt.accountNumber
        type := TransactionType.TRANSFER
        amount := amount
        description := description
        status := TransactionStatus.SUCCESS }
    let incoming : Transaction :=
      { transactionId := transactionId
        fromAccount := src.accountNumber
        toAccount := tgt.accountNumber
        type := TransactionType.TRANSFER
        amount := amount
        description := description
        status := TransactionStatus.SUCCESS }
    (true,
     { src with balance := src.balance - amount
                transactionHistory := src.transactionHistory ++ [outgoing] },
     { tgt with balance := tgt.balance + amount
                transactionHistory := tgt.transactionHistory ++ [incoming] },
     counter')

/-! ## Sequences of single-account operations (claim C1's setting)

A client-visible operation on one account is a deposit or a withdrawal with an
amount and a description; a sequence of them is applied in program order
(per-account operations are serialised by the account's mutex). -/

/-- One single-account operation request. -/
inductive AccountOp
  | deposit (amount : Rat) (description : String)
  | withdraw (amount : Rat) (description : String)
deriving DecidableEq, Repr

/-- Dispatch one operation to `Account::deposit` / `Account::withdraw`. -/
def applyAccountOp (a : Account) (counter : Nat) : AccountOp → Bool × Account × Nat
  | AccountOp.deposit amount d => a.deposit counter amount d
  | AccountOp.withdraw amount d => a.withdraw counter amount d

/-- Apply a sequence of operations; returns the final account state, the final
counter and the list of operations paired with their returned `bool` results. -/
def runAccountOps (a : Account) (counter : Nat) :
    List AccountOp → Account × Nat × List (AccountOp × Bool)
  | [] => (a, counter, [])
  | op :: rest =>
    let r := applyAccountOp a counter op
    let rr := runAccountOps r.2.1 r.2.2 rest
    (rr.1, rr.2.1, (op, r.1) :: rr.2.2)

/-- The balance after each operation of the sequence, in order. -/
def balancesAfter (a : Account) (counter : Nat) : List AccountOp → List Rat
  | [] => []
  | op :: rest =>
    let r := applyAccountOp a counter op
    r.2.1.balance :: balancesAfter r.2.1 r.2.2 rest

/-- The amount contributed by a result entry to the successful-deposit total. -/
def depositAmountIfSuccessful : AccountOp × Bool → Rat
  | (AccountOp.deposit amount _, true) => amount
  | _ => 0

/-- The amount contributed by a result entry to the successful-withdrawal total. -/
def withdrawAmountIfSuccessful : AccountOp × Bool → Rat
  | (AccountOp.withdraw amount _, true) => amount
  | _ => 0

/-- Sum of the amounts of the deposits that returned `true`. -/
def successfulDepositSum (rs : List (AccountOp × Bool)) : Rat :=
  (rs.map depositAmountIfSuccessful).sum

/-- Sum of the amounts of the withdrawals that returned `true`. -/
def successfulWithdrawSum (rs : List (AccountOp × Bool)) : Rat :=
  (rs.map withdrawAmountIfSuccessful).sum

/-- Claim C1's property of a run: the final balance is the initial balance
plus the successful deposits minus the successful withdrawals, and the balance
is nonnegative after every operation of the sequence. -/
def BalanceAccounting (a : Account) (counter : Nat) (ops : List AccountOp) : Prop :=
  (runAccountOps a counter ops).1.balance =
    a.balance + successfulDepositSum (runAccountOps a counter ops).2.2
      - successfulWithdrawSum (runAccountOps a counter ops).2.2
  ∧ ∀ b ∈ balancesAfter a counter ops, 0 ≤ b

theorem runAccountOps_cons (a : Account) (counter : Nat) (op : AccountOp)
    (rest : List AccountOp) :
    runAccountOps a counter (op :: rest) =
      ((runAccountOps (applyAccountOp a counter op).2.1
          (applyAccountOp a counter op).2.2 rest).1,
       (runAccountOps (applyAccountOp a counter op).2.1
          (applyAccountOp a counter op).2.2 rest).2.1,
       (op, (applyAccountOp a counter op).1) ::
         (runAccountOps (applyAccountOp a counter op).2.1
            (applyAccountOp a counter op).2.2 rest).2.2) := rfl

theorem balancesAfter_cons (a : Account) (counter : Nat) (op : AccountOp)
    (rest : List AccountOp) :
    balancesAfter a counter (op :: rest) =
      (applyAccountOp a counter op).2.1.balance ::
        balancesAfter (applyAccountOp a counter op).2.1
          (applyAccountOp a counter op).2.2 rest := rfl

/-- One step of `applyAccountOp`: the balance moves by exactly the amount the
operation's result accounts for, and nonnegativity of the balance is
preserved. -/
theorem applyAccountOp_step (a : Account) (counter : Nat) (op : AccountOp) :
    (applyAccountOp a counter op).2.1.balance =
      a.balance + depositAmountIfSuccessful (op, (applyAccountOp a counter op).1)
        - withdrawAmountIfSuccessful (op, (applyAccountOp a counter op).1)
    ∧ (0 ≤ a.balance → 0 ≤ (applyAccountOp a counter op).2.1.balance) := by
  cases op with
  | deposit amount d =>
    by_cases hle : amount ≤ 0
    · simp [applyAccountOp, Account.deposit, hle, depositAmountIfSuccessful,
        withdrawAmountIfSuccessful]
    · have hlt : 0 < amount := lt_of_not_le hle
      constructor
      · simp [applyAccountOp, Account.deposit, hle, depositAmountIfSuccessful,
          withdrawAmountIfSuccessful]
      · intro h0
        simp only [applyAccountOp, Account.deposit, if_neg hle]
        linarith
  | withdraw amount d =>
    by_cases hle : amount ≤ 0
    · simp [applyAccountOp, Account.withdraw, hle, depositAmountIfSuccessful,
        withdrawAmountIfSuccessful]
    · have hlt : 0 < amount := lt_of_not_le hle
      by_cases hins : a.balance < amount
      · simp [applyAccountOp, Account.withdraw, hle, hins, depositAmountIfSuccessful,
          withdrawAmountIfSuccessful]
      · have hge : amount ≤ a.balance := le_of_not_lt hins
        constructor
        · simp [applyAccountOp, Account.withdraw, hle, hins, depositAmountIfSuccessful,
            withdrawAmountIfSuccessful]
        · intro h0
          simp only [applyAccountOp, Account.withdraw, if_neg hle, if_neg hins]
          linarith

/-- C1: for every sequence of deposit and withdraw operations applied to a
single account whose starting balance is nonnegative, the final balance equals
the starting balance plus the sum of the amounts of the successful deposits
minus the sum of the amounts of the successful withdrawals, and the balance is
never negative after any operation of the sequence. -/
theorem deposit_withdraw_balance_accounting (ops : List AccountOp)
    (a : Account) (counter : Nat) (h : 0 ≤ a.balance) :
    BalanceAccounting a counter ops := by
  induction ops generalizing a counter with
  | nil =>
    refine ⟨?_, ?_⟩
    · simp [BalanceAccounting, runAccountOps, successfulDepositSum,
        successfulWithdrawSum]
    · simp [balancesAfter]
  | cons op rest ih =>
    obtain ⟨hstep, hnn⟩ := applyAccountOp_step a counter op
    obtain ⟨ih1, ih2⟩ := ih (applyAccountOp a counter op).2.1
      (applyAccountOp a counter op).2.2 (hnn h)
    refine ⟨?_, ?_⟩
    · rw [runAccountOps_cons]
      simp only [successfulDepositSum, successfulWithdrawSum, List.map_cons,
        List.sum_cons] at ih1 ⊢
      rw [ih1, hstep]
      ring
    · intro b hb
      rw [balancesAfter_cons, List.mem_cons] at hb
      rcases hb with hb | hb
      · exact hb ▸ hnn h
      · exact ih2 b hb

/-- Witness for C1: an account starting at balance 20 under a deposit of 50,
a withdrawal of 30, an excessive withdrawal of 100 and an invalid deposit of
-5. -/
theorem deposit_withdraw_balance_accounting_witness :
    (0 : Rat) ≤
      ({ accountNumber := "ACC00000001", accountHolderName := "John Smith",
         balance := 20, transactionHistory := [] } : Account).balance ∧
    BalanceAccounting
      { accountNumber := "ACC00000001", accountHolderName := "John Smith",
        balance := 20, transactionHistory := [] } 0
      [AccountOp.deposit 50 "pay", AccountOp.withdraw 30 "rent",
       AccountOp.withdraw 100 "tv", AccountOp.deposit (-5) "bad"] :=
  ⟨by decide,
   deposit_withdraw_balance_accounting
     [AccountOp.deposit 50 "pay", AccountOp.withdraw 30 "rent",
      AccountOp.withdraw 100 "tv", AccountOp.deposit (-5) "bad"]
     { accountNumber := "ACC00000001", accountHolderName := "John Smith",
       balance := 20, transactionHistory := [] } 0 (by decide)⟩

/-! ## Error handling of deposit and withdraw (claim C6) -/

/-- Claim C6's property at one account state, counter, amount and description:
nonpositive amounts make both `deposit` and `withdraw` fail with no mutation
and no record; a positive amount exceeding the balance makes `withdraw` fail,
leave the balance unchanged and append exactly one INSUFFICIENT_FUNDS
WITHDRAW record. -/
def RejectAndInsufficientSpec (a : Account) (counter : Nat) (amount : Rat)
    (d : String) : Prop :=
  (amount ≤ 0 →
    a.deposit counter amount d = (false, a, counter) ∧
    a.withdraw counter amount d = (false, a, counter)) ∧
  (0 < amount → a.balance < amount →
    ∃ t : Transaction,
      a.withdraw counter amount d =
        (false,
         { a with transactionHistory := a.transactionHistory ++ [t] },
         counter + 1) ∧
      t.type = TransactionType.WITHDRAW ∧
      t.status = TransactionStatus.INSUFFICIENT_FUNDS ∧
      t.amount = amount)

/-- C6: `Account::deposit` and `Account::withdraw` reject `amount ≤ 0` with no
mutation and no appended record, and a withdrawal of a positive amount larger
than the balance fails, keeps the balance, and appends exactly one
INSUFFICIENT_FUNDS WITHDRAW record. -/
theorem deposit_withdraw_error_handling (a : Account) (counter : Nat)
    (amount : Rat) (d : String) :
    RejectAndInsufficientSpec a counter amount d := by
  constructor
  · intro hle
    constructor
    · simp [Account.deposit, hle]
    · simp [Account.withdraw, hle]
  · intro hpos hins
    refine ⟨{ transactionId := "WTH_" ++ toString (counter + 1),
              fromAccount := a.accountNumber, toAccount := "",
              type := TransactionType.WITHDRAW, amount := amount,
              description := d, status := TransactionStatus.INSUFFICIENT_FUNDS },
            ?_, rfl, rfl, rfl⟩
    simp [Account.withdraw, not_le.mpr hpos, hins]

/-- Witness for C6 at a concrete account with balance 10, withdrawing 25. -/
theorem deposit_withdraw_error_handling_witness :
    RejectAndInsufficientSpec
      { accountNumber := "ACC00000001", accountHolderName := "John Smith",
        balance := 10, transactionHistory := [] } 0 25 "rent" :=
  deposit_withdraw_error_handling
    { accountNumber := "ACC00000001", accountHolderName := "John Smith",
      balance := 10, transactionHistory := [] } 0 25 "rent"

/-! ## The transfer operation's functional contract (claim C2) -/

/-- Claim C2's property of one `Account::transfer` call: nonpositive amounts
fail with no mutation and no record; insufficient funds fail, leave both
balances unchanged and append one INSUFFICIENT_FUNDS TRANSFER record to the
source only; otherwise the source is debited, the target credited (so the sum
of the two balances is conserved) and exactly one SUCCESS TRANSFER record is
appended to each history, both carrying the same transaction id and
referencing both account numbers. -/
def TransferSpec (src tgt : Account) (counter : Nat) (amount : Rat)
    (d : String) : Prop :=
  (amount ≤ 0 →
    Account.transfer src tgt counter amount d = (false, src, tgt, counter)) ∧
  (0 < amount → src.balance < amount →
    ∃ t : Transaction,
      Account.transfer src tgt counter amount d =
        (false,
         { src with transactionHistory := src.transactionHistory ++ [t] },
         tgt,
         counter + 1) ∧
      t.type = TransactionType.TRANSFER ∧
      t.status = TransactionStatus.INSUFFICIENT_FUNDS ∧
      t.fromAccount = src.accountNumber ∧
      t.toAccount = tgt.accountNumber) ∧
  (0 < amount → amount ≤ src.balance →
    ∃ t₁ t₂ : Transaction,
      Account.transfer src tgt counter amount d =
        (true,
         { src with balance := src.balance - amount
                    transactionHistory := src.transactionHistory ++ [t₁] },
         { tgt with balance := tgt.balance + amount
                    transactionHistory := tgt.transactionHistory ++ [t₂] },
         counter + 1) ∧
      (src.balance - amount) + (tgt.balance + amount) = src.balance + tgt.balance ∧
      t₁.transactionId = t₂.transactionId ∧
      t₁.type = TransactionType.TRANSFER ∧ t₂.type = TransactionType.TRANSFER ∧
      t₁.status = TransactionStatus.SUCCESS ∧ t₂.status = TransactionStatus.SUCCESS ∧
      t₁.fromAccount = src.accountNumber ∧ t₁.toAccount = tgt.accountNumber ∧
      t₂.fromAccount = src.accountNumber ∧ t₂.toAccount = tgt.accountNumber)

/-- C2: the functional contract of `Account::transfer` between two distinct
accounts — failure with no mutation on `amount ≤ 0`; failure, unchanged
balances and a source-side INSUFFICIENT_FUNDS TRANSFER record on insufficient
funds; otherwise debit/credit conserving the two-account total and one SUCCESS
TRANSFER record on each side sharing the same id and referencing both account
numbers. -/
theorem transfer_functional_spec (src tgt : Account) (counter : Nat)
    (amount : Rat) (d : String)
    (hne : src.accountNumber ≠ tgt.accountNumber) :
    TransferSpec src tgt counter amount d := by
  refine ⟨?_, ?_, ?_⟩
  · intro hle
    simp [Account.transfer, hle]
  · intro hpos hins
    refine ⟨{ transactionId := "TRF_" ++ toString (counter + 1),
              fromAccount := src.accountNumber, toAccount := tgt.accountNumber,
              type := TransactionType.TRANSFER, amount := amount,
              description := d, status := TransactionStatus.INSUFFICIENT_FUNDS },
            ?_, rfl, rfl, rfl, rfl⟩
    simp [Account.transfer, not_le.mpr hpos, hins]
  · intro hpos hge
    refine ⟨{ transactionId := "TRF_" ++ toString (counter + 1),
              fromAccount := src.accountNumber, toAccount := tgt.accountNumber,
              type := TransactionType.TRANSFER, amount := amount,
              description := d, status := TransactionStatus.SUCCESS },
            { transactionId := "TRF_" ++ toString (counter + 1),
              fromAccount := src.accountNumber, toAccount := tgt.accountNumber,
              type := TransactionType.TRANSFER, amount := amount,
              description := d, status := TransactionStatus.SUCCESS },
            ?_, by ring, rfl, rfl, rfl, rfl, rfl, rfl, rfl, rfl, rfl⟩
    simp [Account.transfer, not_le.mpr hpos, not_lt.mpr hge]

/-- Witness for C2 at two concrete distinct accounts. -/
theorem transfer_functional_spec_witness :
    ("ACC00000001" : String) ≠ "ACC00000002" ∧
    TransferSpec
      { accountNumber := "ACC00000001", accountHolderName := "John Smith",
        balance := 100, transactionHistory := [] }
      { accountNumber := "ACC00000002", accountHolderName := "Jane Doe",
        balance := 50, transactionHistory := [] } 0 30 "gift" :=
  ⟨by decide,
   transfer_functional_spec
     { accountNumber := "ACC00000001", accountHolderName := "John Smith",
       balance := 100, transactionHistory := [] }
     { accountNumber := "ACC00000002", accountHolderName := "Jane Doe",
       balance := 50, transactionHistory := [] } 0 30 "gift" (by decide)⟩

/-! ## Mutex acquisition traces (claims C3 and C5)

Every `Account` owns one non-recursive `std::mutex accountMutex` (account.h
27). A mutex is named here by the account number of its owning account; the
trace of an operation is the list of acquire/release events it performs in
program order, ignoring blocking (so the trace shows which acquisitions the
code attempts, even those that would self-deadlock). -/

/-- One event on an account mutex. -/
inductive LockEvent
  | acquire (m : String)
  | release (m : String)
deriving DecidableEq, Repr

/-- `Account::addTransaction` (account.cpp 200-204): takes its own
`lock_guard` on `accountMutex` for the duration of the `push_back`. -/
def addTransactionLockTrace (m : String) : List LockEvent :=
  [LockEvent.acquire m, LockEvent.release m]

/-- Mutex events of `Account::deposit` (account.cpp 92-112): the `lock_guard`
at entry, then — when the amount is positive — the nested events of the
`addTransaction` call made while that guard is still alive, then the guard's
release on return. -/
def depositLockTrace (m : String) (amount : Rat) : List LockEvent :=
  LockEvent.acquire m ::
    ((if amount ≤ 0 then [] else addTransactionLockTrace m) ++
      [LockEvent.release m])

/-- Mutex events of `Account::withdraw` (account.cpp 114-145): as for
`deposit`; both the insufficient-funds branch and the success branch call
`addTransaction` once under the entry guard. -/
def withdrawLockTrace (m : String) (amount balance : Rat) : List LockEvent :=
  LockEvent.acquire m ::
    ((if amount ≤ 0 then []
      else if balance < amount then addTransactionLockTrace m
      else addTransactionLockTrace m) ++
      [LockEvent.release m])

/-- Mutex events of `Account::transfer` (account.cpp 147-198): the two
deferred `unique_lock`s are locked in account-number order (`lock1` = source
mutex first when `accountNumber < targetAccount.accountNumber`, otherwise
`lock2` = target mutex first); then, while both are held, `addTransaction` on
the source (insufficient funds) or on the source and then the target
(success); the destructors release `lock2` then `lock1`. -/
def transferLockTrace (srcNum tgtNum : String) (amount srcBalance : Rat) :
    List LockEvent :=
  (if srcNum < tgtNum then [LockEvent.acquire srcNum, LockEvent.acquire tgtNum]
   else [LockEvent.acquire tgtNum, LockEvent.acquire srcNum]) ++
  (if amount ≤ 0 then []
   else if srcBalance < amount then addTransactionLockTrace srcNum
   else addTransactionLockTrace srcNum ++ addTransactionLockTrace tgtNum) ++
  [LockEvent.release tgtNum, LockEvent.release srcNum]

/-- `nestedAcquire held trace` is `true` when, starting with the multiset
`held` of mutexes already held, the trace at some point acquires a mutex it
already holds — the self-deadlock / undefined behaviour of re-locking a
non-recursive `std::mutex`. -/
def nestedAcquire (held : List String) : List LockEvent → Bool
  | [] => false
  | LockEvent.acquire m :: rest => held.contains m || nestedAcquire (m :: held) rest
  | LockEvent.release m :: rest => nestedAcquire (held.erase m) rest

/-- How many times a trace acquires the mutex `m`. -/
def acquireCount (m : String) : List LockEvent → Nat
  | [] => 0
  | LockEvent.acquire n :: rest => (if n = m then 1 else 0) + acquireCount m rest
  | LockEvent.release _ :: rest => acquireCount m rest

/-- C3: every record-appending path — deposit with a positive amount, withdraw
with a positive amount in both its outcomes, and transfer with a positive
amount in both its record-producing outcomes — calls `addTransaction` while
the operation already holds the account's non-recursive mutex, so its trace
contains a nested acquisition of an already-held mutex. -/
theorem record_paths_nested_acquire (amount : Rat) (h : 0 < amount) :
    (∀ m : String, nestedAcquire [] (depositLockTrace m amount) = true) ∧
    (∀ (m : String) (balance : Rat),
      nestedAcquire [] (withdrawLockTrace m amount balance) = true) ∧
    (∀ (srcNum tgtNum : String) (srcBalance : Rat),
      nestedAcquire [] (transferLockTrace srcNum tgtNum amount srcBalance) = true) := by
  have hle : ¬ amount ≤ 0 := not_le.mpr h
  refine ⟨?_, ?_, ?_⟩
  · intro m
    simp [depositLockTrace, addTransactionLockTrace, nestedAcquire, hle]
  · intro m balance
    by_cases hins : balance < amount <;>
      simp [withdrawLockTrace, addTransactionLockTrace, nestedAcquire, hle, hins]
  · intro srcNum tgtNum srcBalance
    by_cases hord : srcNum < tgtNum <;>
      by_cases hins : srcBalance < amount <;>
        simp [transferLockTrace, addTransactionLockTrace, nestedAcquire, hle,
          hord, hins, List.erase]

/-- Witness for C3: a deposit of 1 on the mutex of account ACC00000001. -/
theorem record_paths_nested_acquire_witness :
    (0 : Rat) < 1 ∧
    nestedAcquire [] (depositLockTrace "ACC00000001" 1) = true :=
  ⟨by norm_num, (record_paths_nested_acquire 1 (by norm_num)).1 "ACC00000001"⟩

/-- Counterexample to C5: a self-transfer (account ACC00000001 transferring 5
to itself, balance 10) acquires that account's single mutex twice, not once,
and the second acquisition happens while the first is still held. -/
theorem transfer_self_lock_counterexample :
    acquireCount "ACC00000001"
      (transferLockTrace "ACC00000001" "ACC00000001" 5 10) ≠ 1 ∧
    nestedAcquire []
      (transferLockTrace "ACC00000001" "ACC00000001" 5 10) = true := by
  have hord : ¬ ("ACC00000001" : String) < "ACC00000001" := lt_irrefl _
  have h1 : ¬ (5 : Rat) ≤ 0 := by norm_num
  have h2 : ¬ (10 : Rat) < 5 := by norm_num
  constructor
  · simp [transferLockTrace, addTransactionLockTrace, acquireCount, hord, h1, h2]
  · simp [transferLockTrace, nestedAcquire, hord]

/-- C5 amended: a self-transfer acquires the account's single non-recursive
mutex at least twice — the ordering branch compares the account number with
itself, takes the `else` branch and locks `lock2` then `lock1`, which alias
the same mutex, and there is no self-transfer check — so the second
acquisition is nested inside the first (self-deadlock), for every amount and
balance. -/
theorem transfer_self_double_acquire (a : String) (amount balance : Rat) :
    2 ≤ acquireCount a (transferLockTrace a a amount balance) ∧
    nestedAcquire [] (transferLockTrace a a amount balance) = true := by
  have hord : ¬ a < a := lt_irrefl a
  constructor
  · by_cases hle : amount ≤ 0
    · simp [transferLockTrace, addTransactionLockTrace, acquireCount, hord, hle]
    · by_cases hins : balance < amount <;>
        simp [transferLockTrace, addTransactionLockTrace, acquireCount, hord,
          hle, hins]
  · simp [transferLockTrace, nestedAcquire, hord]

/-! ## ThreadPool lifecycle (claims C4 and C9)

The pool's observable state (thread_manager.h 19-54): the atomic `running`
flag, the vector of worker threads (only its size matters here), and the task
queue. Tasks are opaque closures, modelled as `Nat` identifiers; the queue is
the list in the pop order of the pool's `priority_queue` (all tasks enter via
`submitTask` with the same priority 0, thread_manager.cpp 59). -/

/-- The state of a `ThreadPool`. -/
structure PoolState where
  running : Bool
  workers : Nat
  queue : List Nat
deriving DecidableEq, Repr

/-- Resumption of the workers blocked in `condition.wait` when
`ThreadPool::stop` flips `running` to `false` and calls `notify_all`
(thread_manager.cpp 35-49 and 87-119): each woken worker sees `!running`; if
the queue is empty it breaks, otherwise it pops the top task, executes it, and
then exits because the outer `while (running)` test fails. Returns the list of
tasks executed this way and the abandoned remainder of the queue. -/
def resumeWaitingWorkersAfterStop : Nat → List Nat → List Nat × List Nat
  | 0, queue => ([], queue)
  | _ + 1, [] => ([], [])
  | waiting + 1, t :: rest =>
    let r := resumeWaitingWorkersAfterStop waiting rest
    (t :: r.1, r.2)

/-- `ThreadPool::stop` (thread_manager.cpp 35-49), with `waiting` the number
of worker threads blocked in `condition.wait` at the moment stop is requested
(at most the pool's worker count): sets `running := false`, wakes all workers
— each waiting one drains one task per `resumeWaitingWorkersAfterStop` — then
joins every worker and clears the worker vector. Returns the new state and
the tasks executed after the stop request. -/
def ThreadPool.stop (s : PoolState) (waiting : Nat) : PoolState × List Nat :=
  let r := resumeWaitingWorkersAfterStop (min waiting s.workers) s.queue
  ({ running := false, workers := 0, queue := r.2 }, r.1)

/-- `ThreadPool::start` (thread_manager.cpp 27-33): sets the running flag if
it was clear; creates no workers (`createWorker` is called only from the
constructor, thread_manager.cpp 14-21). -/
def ThreadPool.start (s : PoolState) : PoolState :=
  if s.running then s else { s with running := true }

/-- `ThreadPool::submitTask` (thread_manager.cpp 51-65): fails when the pool
is not running; otherwise pushes the task and succeeds. -/
def ThreadPool.submitTask (s : PoolState) (t : Nat) : Bool × PoolState :=
  if s.running then (true, { s with queue := s.queue ++ [t] }) else (false, s)

/-- Events driving a pool: the public lifecycle calls, plus one iteration of
`ThreadPool::workerFunction`'s loop (thread_manager.cpp 87-119) on one of the
pool's live worker threads — which requires such a thread to exist and the
pool to be running, and pops and executes the top task. -/
inductive PoolOp
  | start
  | stop (waiting : Nat)
  | submit (t : Nat)
  | workerStep
deriving DecidableEq, Repr

/-- Apply one pool event; returns the new state and the tasks executed by the
event. -/
def applyPoolOp (s : PoolState) : PoolOp → PoolState × List Nat
  | PoolOp.start => (ThreadPool.start s, [])
  | PoolOp.stop waiting => ThreadPool.stop s waiting
  | PoolOp.submit t => ((ThreadPool.submitTask s t).2, [])
  | PoolOp.workerStep =>
    if 0 < s.workers ∧ s.running = true then
      match s.queue with
      | [] => (s, [])
      | t :: rest => ({ s with queue := rest }, [t])
    else (s, [])

/-- Apply a sequence of pool events, accumulating every executed task. -/
def runPoolOps (s : PoolState) : List PoolOp → PoolState × List Nat
  | [] => (s, [])
  | op :: rest =>
    let r := applyPoolOp s op
    let rr := runPoolOps r.1 rest
    (rr.1, r.2 ++ rr.2)

theorem resumeWaitingWorkersAfterStop_eq (waiting : Nat) (queue : List Nat) :
    resumeWaitingWorkersAfterStop waiting queue =
      (queue.take waiting, queue.drop waiting) := by
  induction waiting generalizing queue with
  | zero => simp [resumeWaitingWorkersAfterStop]
  | succ n ih =>
    cases queue with
    | nil => simp [resumeWaitingWorkersAfterStop]
    | cons t rest => simp [resumeWaitingWorkersAfterStop, ih]

/-- Counterexample to C4: a running pool with one worker blocked waiting and
task 7 in the queue; when stop is requested, the queued task 7 is executed by
the woken worker rather than abandoned. -/
theorem stop_executes_queued_task_counterexample :
    (ThreadPool.stop { running := true, workers := 1, queue := [7] } 1).2 = [7] ∧
    (ThreadPool.stop { running := true, workers := 1, queue := [7] } 1).2 ≠ [] := by
  constructor
  · rfl
  · decide

/-- C4 amended: when stop is requested, each worker blocked waiting in the
pool pops and executes one still-queued task (in queue order) before exiting,
so the first `min waiting workers` queued tasks are executed after the stop
request rather than abandoned; only the remaining tasks are abandoned, and
stop joins every worker (each finishes its current task) and clears the
worker vector before returning. -/
theorem stop_drains_one_task_per_waiting_worker (s : PoolState) (waiting : Nat)
    (h : waiting ≤ s.workers) :
    (ThreadPool.stop s waiting).2 = s.queue.take waiting ∧
    (ThreadPool.stop s waiting).1.queue = s.queue.drop waiting ∧
    (ThreadPool.stop s waiting).1.workers = 0 ∧
    (ThreadPool.stop s waiting).1.running = false := by
  have hmin : min waiting s.workers = waiting := min_eq_left h
  refine ⟨?_, ?_, rfl, rfl⟩
  · simp [ThreadPool.stop, hmin, resumeWaitingWorkersAfterStop_eq]
  · simp [ThreadPool.stop, hmin, resumeWaitingWorkersAfterStop_eq]

/-- Witness for the amended C4 at a pool of 2 workers, both waiting, with
three queued tasks: tasks 1 and 2 are executed, task 3 is abandoned. -/
theorem stop_drains_one_task_per_waiting_worker_witness :
    2 ≤ ({ running := true, workers := 2, queue := [1, 2, 3] } : PoolState).workers ∧
    ((ThreadPool.stop { running := true, workers := 2, queue := [1, 2, 3] } 2).2 =
        [1, 2, 3].take 2 ∧
      (ThreadPool.stop { running := true, workers := 2, queue := [1, 2, 3] } 2).1.queue =
        [1, 2, 3].drop 2 ∧
      (ThreadPool.stop { running := true, workers := 2, queue := [1, 2, 3] } 2).1.workers = 0 ∧
      (ThreadPool.stop { running := true, workers := 2, queue := [1, 2, 3] } 2).1.running = false) :=
  ⟨by decide,
   stop_drains_one_task_per_waiting_worker
     { running := true, workers := 2, queue := [1, 2, 3] } 2 (by decide)⟩

theorem runPoolOps_no_workers (ops : List PoolOp) (s : PoolState)
    (hw : s.workers = 0) :
    (runPoolOps s ops).2 = [] ∧ (runPoolOps s ops).1.workers = 0 := by
  induction ops generalizing s with
  | nil => exact ⟨rfl, hw⟩
  | cons op rest ih =>
    have hstep : (applyPoolOp s op).2 = [] ∧ (applyPoolOp s op).1.workers = 0 := by
      cases op with
      | start =>
        refine ⟨rfl, ?_⟩
        by_cases hr : s.running <;> simp [applyPoolOp, ThreadPool.start, hr, hw]
      | stop waiting =>
        simp [applyPoolOp, ThreadPool.stop, hw, resumeWaitingWorkersAfterStop]
      | submit t =>
        refine ⟨rfl, ?_⟩
        by_cases hr : s.running <;> simp [applyPoolOp, ThreadPool.submitTask, hr, hw]
      | workerStep =>
        simp [applyPoolOp, hw]
    obtain ⟨h2, h1⟩ := hstep
    obtain ⟨ih2, ih1⟩ := ih (applyPoolOp s op).1 h1
    constructor
    · show (applyPoolOp s op).2 ++ (runPoolOps (applyPoolOp s op).1 rest).2 = []
      rw [h2, ih2]
      rfl
    · exact ih1

/-- C9: after `stop` (which joins and clears the entire worker vector) a
subsequent `start` only sets the running flag and creates no workers, so a
task submitted after such a restart is accepted (`submitTask` returns `true`
and enqueues it) but no sequence of further pool events ever executes any
task — the pool has no worker thread left to run `workerFunction`. -/
theorem restart_accepts_but_never_executes (s : PoolState) (waiting t : Nat) :
    (ThreadPool.start (ThreadPool.stop s waiting).1).workers = 0 ∧
    (ThreadPool.start (ThreadPool.stop s waiting).1).running = true ∧
    (ThreadPool.submitTask (ThreadPool.start (ThreadPool.stop s waiting).1) t).1 = true ∧
    (ThreadPool.submitTask (ThreadPool.start (ThreadPool.stop s waiting).1) t).2.queue =
      (ThreadPool.stop s waiting).1.queue ++ [t] ∧
    ∀ ops : List PoolOp,
      (runPoolOps
        (ThreadPool.submitTask (ThreadPool.start (ThreadPool.stop s waiting).1) t).2
        ops).2 = [] := by
  have hstop : (ThreadPool.stop s waiting).1.running = false := rfl
  have hstopw : (ThreadPool.stop s waiting).1.workers = 0 := rfl
  have hstart : ThreadPool.start (ThreadPool.stop s waiting).1 =
      { (ThreadPool.stop s waiting).1 with running := true } := by
    simp [ThreadPool.start, hstop]
  refine ⟨?_, ?_, ?_, ?_, ?_⟩
  · rw [hstart]; exact hstopw
  · rw [hstart]
  · rw [hstart]; simp [ThreadPool.submitTask]
  · rw [hstart]; simp [ThreadPool.submitTask]
  · intro ops
    refine (runPoolOps_no_workers ops _ ?_).1
    rw [hstart]
    simp [ThreadPool.submitTask]
    exact hstopw

/-! ## The Bank registry (claims C7, C8 and C10)

The registry keeps `std::map<std::string, std::shared_ptr<Account>> accounts`
(bank.h); it is modelled as an association list with unique keys, ordered as
the map iterates. -/

/-- `TransactionUtils::isValidAccountNumber` (transaction.cpp 417-419). -/
def isValidAccountNumber (accountNumber : String) : Bool :=
  !accountNumber.isEmpty && 8 ≤ accountNumber.length

/-- `BankUtils::isValidInitialBalance` (bank.cpp 506-508). -/
def isValidInitialBalance (balance : Rat) : Bool :=
  0 ≤ balance && balance < 1000000

/-- `BankException::ErrorType` (bank.h 139-148). -/
inductive ErrorType
  | ACCOUNT_NOT_FOUND
  | INSUFFICIENT_FUNDS
  | INVALID_AMOUNT
  | ACCOUNT_CLOSED
  | TRANSACTION_FAILED
  | SYSTEM_ERROR
  | INVALID_ACCOUNT_NUMBER
  | DUPLICATE_ACCOUNT
deriving DecidableEq, Repr

/-- How `Bank::createAccount` terminates: by throwing a `BankException` (with
an error type and message) or by returning the new account number normally. -/
inductive CreateAccountOutcome
  | thrown (errorType : ErrorType) (message : String)
  | returned (accountNumber : String)
deriving DecidableEq, Repr

/-- Whether the outcome is a thrown exception. -/
def CreateAccountOutcome.isThrown : CreateAccountOutcome → Bool
  | CreateAccountOutcome.thrown _ _ => true
  | CreateAccountOutcome.returned _ => false

/-- `Bank::createAccount` (bank.cpp 75-112), its termination behaviour: an
empty holder name throws `INVALID_ACCOUNT_NUMBER`, an invalid initial balance
throws `INVALID_AMOUNT`, a full registry (`getTotalAccounts() >=
config.maxAccounts`) throws `SYSTEM_ERROR`; otherwise the generated account
number is returned. `totalAccounts`/`maxAccounts` stand for the current map
size and `config.maxAccounts`; `newNumber` for the value of
`BankUtils::generateAccountNumber()`. -/
def Bank.createAccount (holderName : String) (initialBalance : Rat)
    (totalAccounts maxAccounts : Nat) (newNumber : String) :
    CreateAccountOutcome :=
  if holderName.isEmpty then
    CreateAccountOutcome.thrown ErrorType.INVALID_ACCOUNT_NUMBER
      "Account holder name cannot be empty"
  else if !isValidInitialBalance initialBalance then
    CreateAccountOutcome.thrown ErrorType.INVALID_AMOUNT "Invalid initial balance"
  else if maxAccounts ≤ totalAccounts then
    CreateAccountOutcome.thrown ErrorType.SYSTEM_ERROR
      "Maximum number of accounts reached"
  else
    CreateAccountOutcome.returned newNumber

/-- `Bank::getAccount` (bank.cpp 143-151): `nullptr` (here `none`) on an
invalid account number or a number absent from the map. -/
def Bank.getAccount (accounts : List (String × Account)) (accountNumber : String) :
    Option Account :=
  if !isValidAccountNumber accountNumber then none
  else
    match accounts.find? (fun p => p.1 == accountNumber) with
    | some p => some p.2
    | none => none

/-- `Bank::closeAccount` (bank.cpp 114-141): fails on an invalid number, an
absent account or a nonzero balance; otherwise erases the entry and
succeeds. -/
def Bank.closeAccount (accounts : List (String × Account))
    (accountNumber : String) : Bool × List (String × Account) :=
  if !isValidAccountNumber accountNumber then (false, accounts)
  else
    match accounts.find? (fun p => p.1 == accountNumber) with
    | none => (false, accounts)
    | some p =>
      if p.2.balance ≠ 0 then (false, accounts)
      else (true, accounts.eraseP (fun q => q.1 == accountNumber))

/-- `Bank::getAccountBalance` (bank.cpp 227-230): the account's balance, or
the sentinel `-1.0` when `getAccount` yields no account. -/
def Bank.getAccountBalance (accounts : List (String × Account))
    (accountNumber : String) : Rat :=
  match Bank.getAccount accounts accountNumber with
  | some a => a.balance
  | none => -1

/-- Counterexample to C7: creating an account with an empty holder name makes
`Bank::createAccount` throw a `BankException` (of type
`INVALID_ACCOUNT_NUMBER`) to the caller instead of returning a failure
result. -/
theorem createAccount_throws_counterexample :
    Bank.createAccount "" 100 0 10 "ACC00000001" =
      CreateAccountOutcome.thrown ErrorType.INVALID_ACCOUNT_NUMBER
        "Account holder name cannot be empty" ∧
    (Bank.createAccount "" 100 0 10 "ACC00000001").isThrown = true := by
  constructor
  · rfl
  · rfl

/-- C7 amended: the `createAccount` errors of the taxonomy — invalid holder
name (empty, thrown with type `INVALID_ACCOUNT_NUMBER`), invalid initial
balance (thrown with type `INVALID_AMOUNT`) and account limit reached (thrown
with type `SYSTEM_ERROR`) — are reported synchronously to the caller by
throwing `BankException`, not as a returned failure result. -/
theorem createAccount_error_reporting (holderName : String)
    (initialBalance : Rat) (totalAccounts maxAccounts : Nat)
    (newNumber : String) :
    (holderName.isEmpty = true →
      Bank.createAccount holderName initialBalance totalAccounts maxAccounts
          newNumber =
        CreateAccountOutcome.thrown ErrorType.INVALID_ACCOUNT_NUMBER
          "Account holder name cannot be empty") ∧
    (holderName.isEmpty = false → isValidInitialBalance initialBalance = false →
      Bank.createAccount holderName initialBalance totalAccounts maxAccounts
          newNumber =
        CreateAccountOutcome.thrown ErrorType.INVALID_AMOUNT
          "Invalid initial balance") ∧
    (holderName.isEmpty = false → isValidInitialBalance initialBalance = true →
      maxAccounts ≤ totalAccounts →
      Bank.createAccount holderName initialBalance totalAccounts maxAccounts
          newNumber =
        CreateAccountOutcome.thrown ErrorType.SYSTEM_ERROR
          "Maximum number of accounts reached") := by
  refine ⟨?_, ?_, ?_⟩
  · intro hempty
    simp [Bank.createAccount, hempty]
  · intro hempty hbal
    simp [Bank.createAccount, hempty, hbal]
  · intro hempty hbal hfull
    simp [Bank.createAccount, hempty, hbal, hfull]

/-- Witness for the amended C7: the three throwing branches at concrete
inputs. -/
theorem createAccount_error_reporting_witness :
    Bank.createAccount "" 100 0 10 "ACC00000002" =
      CreateAccountOutcome.thrown ErrorType.INVALID_ACCOUNT_NUMBER
        "Account holder name cannot be empty" ∧
    Bank.createAccount "John Smith" (-5) 0 10 "ACC00000002" =
      CreateAccountOutcome.thrown ErrorType.INVALID_AMOUNT
        "Invalid initial balance" ∧
    Bank.createAccount "John Smith" 100 10 10 "ACC00000002" =
      CreateAccountOutcome.thrown ErrorType.SYSTEM_ERROR
        "Maximum number of accounts reached" :=
  ⟨(createAccount_error_reporting "" 100 0 10 "ACC00000002").1 (by decide),
   (createAccount_error_reporting "John Smith" (-5) 0 10 "ACC00000002").2.1
     (by decide) (by decide),
   (createAccount_error_reporting "John Smith" 100 10 10 "ACC00000002").2.2
     (by decide) (by decide) (by decide)⟩

theorem find?_eraseP_eq_none (accounts : List (String × Account)) (n : String)
    (h : (accounts.map Prod.fst).Nodup) :
    (accounts.eraseP (fun q => q.1 == n)).find? (fun q => q.1 == n) = none := by
  induction accounts with
  | nil => rfl
  | cons p rest ih =>
    rw [List.map_cons, List.nodup_cons] at h
    obtain ⟨hnotin, hrest⟩ := h
    by_cases hp : p.1 = n
    · have hb : (p.1 == n) = true := by simpa using hp
      simp only [List.eraseP_cons, hb, cond_true]
      apply List.find?_eq_none.mpr
      intro q hq
      simp only [beq_iff_eq]
      intro hqn
      apply hnotin
      rw [hp, ← hqn]
      exact List.mem_map_of_mem Prod.fst hq
    · have hb : (p.1 == n) = false := by simpa using hp
      simp only [List.eraseP_cons, hb, cond_false]
      rw [List.find?_cons_of_neg _ (by simp [hb])]
      exact ih hrest

/-- Claim C8's property at one registry state and account number: when
`getAccount` finds nothing (invalid or absent number), `closeAccount` fails
and leaves the mapping unchanged; when the account exists with nonzero
balance, `closeAccount` fails and leaves the mapping unchanged; when it
exists with balance exactly zero, `closeAccount` succeeds, removes it, and a
subsequent `getAccount` of that number finds nothing. -/
def CloseAccountSpec (accounts : List (String × Account)) (n : String) : Prop :=
  (Bank.getAccount accounts n = none →
    Bank.closeAccount accounts n = (false, accounts)) ∧
  (∀ a : Account, Bank.getAccount accounts n = some a → a.balance ≠ 0 →
    Bank.closeAccount accounts n = (false, accounts)) ∧
  (∀ a : Account, Bank.getAccount accounts n = some a → a.balance = 0 →
    (Bank.closeAccount accounts n).1 = true ∧
    Bank.getAccount (Bank.closeAccount accounts n).2 n = none)

/-- C8: `Bank::closeAccount` fails and leaves the account map unchanged when
the named account is absent (or the number is invalid) or its balance is
nonzero; when it exists with balance exactly zero it succeeds, removes the
entry, and subsequent `getAccount` lookups return absent. The map's keys are
unique (`std::map` invariant). -/
theorem closeAccount_spec (accounts : List (String × Account)) (n : String)
    (h : (accounts.map Prod.fst).Nodup) :
    CloseAccountSpec accounts n := by
  by_cases hv : isValidAccountNumber n = true
  · cases hfind : accounts.find? (fun p => p.1 == n) with
    | none =>
      refine ⟨?_, ?_, ?_⟩
      · intro _
        simp [Bank.closeAccount, hv, hfind]
      · intro a ha
        exfalso
        simp [Bank.getAccount, hv, hfind] at ha
      · intro a ha
        exfalso
        simp [Bank.getAccount, hv, hfind] at ha
    | some p =>
      have hget : Bank.getAccount accounts n = some p.2 := by
        simp [Bank.getAccount, hv, hfind]
      refine ⟨?_, ?_, ?_⟩
      · intro hna
        rw [hget] at hna
        cases hna
      · intro a ha hbal
        rw [hget] at ha
        injection ha with ha
        subst ha
        simp [Bank.closeAccount, hv, hfind, hbal]
      · intro a ha hbal
        rw [hget] at ha
        injection ha with ha
        subst ha
        constructor
        · simp [Bank.closeAccount, hv, hfind, hbal]
        · have hclose : (Bank.closeAccount accounts n).2 =
              accounts.eraseP (fun q => q.1 == n) := by
            simp [Bank.closeAccount, hv, hfind, hbal]
          rw [hclose]
          simp [Bank.getAccount, hv, find?_eraseP_eq_none accounts n h]
  · have hvf : isValidAccountNumber n = false := by
      simpa using hv
    refine ⟨?_, ?_, ?_⟩
    · intro _
      simp [Bank.closeAccount, hvf]
    · intro a ha
      exfalso
      simp [Bank.getAccount, hvf] at ha
    · intro a ha
      exfalso
      simp [Bank.getAccount, hvf] at ha

/-- Witness for C8 at a concrete two-account registry. -/
theorem closeAccount_spec_witness :
    (([("ACC00000001",
        { accountNumber := "ACC00000001", accountHolderName := "John Smith",
          balance := 0, transactionHistory := [] }),
       ("ACC00000002",
        { accountNumber := "ACC00000002", accountHolderName := "Jane Doe",
          balance := 75, transactionHistory := [] })] :
        List (String × Account)).map Prod.fst).Nodup ∧
    CloseAccountSpec
      [("ACC00000001",
        { accountNumber := "ACC00000001", accountHolderName := "John Smith",
          balance := 0, transactionHistory := [] }),
       ("ACC00000002",
        { accountNumber := "ACC00000002", accountHolderName := "Jane Doe",
          balance := 75, transactionHistory := [] })] "ACC00000001" :=
  ⟨by decide,
   closeAccount_spec
     [("ACC00000001",
       { accountNumber := "ACC00000001", accountHolderName := "John Smith",
         balance := 0, transactionHistory := [] }),
      ("ACC00000002",
       { accountNumber := "ACC00000002", accountHolderName := "Jane Doe",
         balance := 75, transactionHistory := [] })] "ACC00000001" (by decide)⟩

/-- C10: for every account number that is invalid or has no entry in the
registry, `Bank::getAccountBalance` returns the sentinel `-1.0` through the
same numeric channel that otherwise carries the account's balance. -/
theorem getAccountBalance_sentinel (accounts : List (String × Account))
    (n : String) :
    ((isValidAccountNumber n = false ∨
        accounts.find? (fun p => p.1 == n) = none) →
      Bank.getAccountBalance accounts n = -1) ∧
    (∀ a : Account, Bank.getAccount accounts n = some a →
      Bank.getAccountBalance accounts n = a.balance) := by
  constructor
  · intro h
    rcases h with h | h
    · simp [Bank.getAccountBalance, Bank.getAccount, h]
    · by_cases hv : isValidAccountNumber n = true
      · simp [Bank.getAccountBalance, Bank.getAccount, hv, h]
      · have hvf : isValidAccountNumber n = false := by simpa using hv
        simp [Bank.getAccountBalance, Bank.getAccount, hvf]
  · intro a ha
    simp [Bank.getAccountBalance, ha]

/-- Witness for C10: an empty registry and a valid but absent number. -/
theorem getAccountBalance_sentinel_witness :
    ((isValidAccountNumber "ACC00000009" = false ∨
        ([] : List (String × Account)).find?
          (fun p => p.1 == "ACC00000009") = none) →
      Bank.getAccountBalance [] "ACC00000009" = -1) ∧
    Bank.getAccountBalance [] "ACC00000009" = -1 :=
  ⟨(getAccountBalance_sentinel [] "ACC00000009").1,
   (getAccountBalance_sentinel [] "ACC00000009").1 (Or.inr rfl)⟩

end MTBS
